import Mathlib

/-!
# x11wm.h: window descriptors, client list and focus switching

A shallow embedding of `src/x11wm.h` (namespace `xcb`).

* Byte strings (`std::string`, property values) are lists of naturals below 256.
* The memory behind a reply's value pointer is a function from byte offsets to
  bytes. It is defined past the declared value length as well, because the C
  code can address those bytes; what they hold is up to the allocator.
* The connection is threaded explicitly as a `State`: the requests written so
  far, the diagnostics printed to `stderr`, and a log of descriptor calls made
  by the focus controller.
* The X server is a deterministic function from the request history to the
  reply of the last request.
-/

namespace xcb

/-! ## Protocol constants and library functions -/

/-- A `std::string` or a raw property value: a sequence of bytes. -/
abbrev Bytes := List Nat

/-- Memory reachable from a pointer, by byte offset. -/
abbrev Memory := Nat → Nat

/-- Modelled from the spec: the "none" atom sentinel, `XCB_ATOM_NONE` of
`xcb/xproto.h` (the header is not part of the sources); protocol value 0. -/
def XCB_ATOM_NONE : Nat := 0

/-- Modelled from the spec: the "none" window sentinel, `XCB_WINDOW_NONE` of
`xcb/xproto.h` (not part of the sources); protocol value 0. -/
def XCB_WINDOW_NONE : Nat := 0

/-- Modelled from the spec: the "current time" timestamp, `XCB_CURRENT_TIME` of
`xcb/xproto.h` (not part of the sources); protocol value 0. -/
def XCB_CURRENT_TIME : Nat := 0

/-- Modelled from the spec: expected type "ANY" of a property read,
`XCB_GET_PROPERTY_TYPE_ANY` of `xcb/xproto.h` (not part of the sources);
protocol value 0. -/
def XCB_GET_PROPERTY_TYPE_ANY : Nat := 0

/-- Modelled from the spec: the predefined atom of the window-handle type,
`XCB_ATOM_WINDOW` of `xcb/xproto.h` (not part of the sources); protocol
value 33. -/
def XCB_ATOM_WINDOW : Nat := 33

/-- Modelled from the spec: event code of a client message,
`XCB_CLIENT_MESSAGE` of `xcb/xproto.h` (not part of the sources); protocol
value 33. -/
def XCB_CLIENT_MESSAGE : Nat := 33

/-- Modelled from the spec: the substructure-notify event mask,
`XCB_EVENT_MASK_SUBSTRUCTURE_NOTIFY` of `xcb/xproto.h` (not part of the
sources); protocol value `2^19`. -/
def XCB_EVENT_MASK_SUBSTRUCTURE_NOTIFY : Nat := 524288

/-- Modelled from the spec: the substructure-redirect event mask,
`XCB_EVENT_MASK_SUBSTRUCTURE_REDIRECT` of `xcb/xproto.h` (not part of the
sources); protocol value `2^20`. -/
def XCB_EVENT_MASK_SUBSTRUCTURE_REDIRECT : Nat := 1048576

/-- Modelled from the spec: the parent-relative revert mode of set-input-focus,
`XCB_INPUT_FOCUS_PARENT` of `xcb/xproto.h` (not part of the sources); protocol
value 2. -/
def XCB_INPUT_FOCUS_PARENT : Nat := 2

/-- Modelled from the spec: the stack-mode bit of a configure-window value
mask, `XCB_CONFIG_WINDOW_STACK_MODE` of `xcb/xproto.h` (not part of the
sources); protocol value 64. -/
def XCB_CONFIG_WINDOW_STACK_MODE : Nat := 64

/-- Modelled from the spec: stack mode "above", `XCB_STACK_MODE_ABOVE` of
`xcb/xproto.h` (not part of the sources); protocol value 0. -/
def XCB_STACK_MODE_ABOVE : Nat := 0

/-- Byte order of the host: `memcpy` into a `uint32_t` and `win[i]` on a
`uint32_t *` assemble four bytes in this order. -/
inductive ByteOrder where
  | little
  | big
  deriving DecidableEq, Repr

/-- The `uint32_t` stored in the four bytes at offsets `p .. p+3` of `mem`. -/
def load32 (bo : ByteOrder) (mem : Memory) (p : Nat) : Nat :=
  match bo with
  | .little =>
      (mem p + 256 * mem (p + 1) + 65536 * mem (p + 2) + 16777216 * mem (p + 3)) % 4294967296
  | .big =>
      (16777216 * mem p + 65536 * mem (p + 1) + 256 * mem (p + 2) + mem (p + 3)) % 4294967296

/-- C library `strnlen(mem + p, maxlen)`: the number of bytes before the first
NUL among the `maxlen` bytes starting at offset `p`, or `maxlen` if there is
none. -/
def strnlen (mem : Memory) (p : Nat) : Nat → Nat
  | 0 => 0
  | maxlen + 1 => if mem p = 0 then 0 else strnlen mem (p + 1) maxlen + 1

/-- The constructor `std::string(mem + p, len)`: the `len` bytes from offset
`p`. -/
def std_string (mem : Memory) (p : Nat) : Nat → Bytes
  | 0 => []
  | len + 1 => mem p :: std_string mem (p + 1) len

/-- Memory that holds the bytes `l` at offsets `0 .. l.length - 1` and zero
bytes after them. -/
def mem_of (l : Bytes) : Memory := fun i => l.getD i 0

/-! ## Requests, replies, server and connection state -/

/-- The event `xcb_client_message_event_t` with its payload viewed as five
32-bit words (`data.data32`). -/
structure xcb_client_message_event_t where
  response_type : Nat
  format : Nat
  sequence : Nat
  window : Nat
  type : Nat
  data32 : List Nat
  deriving DecidableEq, Repr

/-- What the program does on the connection, with the arguments of the xcb
call that does it. -/
inductive Request where
  | intern_atom (only_if_exists name_len : Nat) (name : String)
  | get_property (delete window property type long_offset long_length : Nat)
  | send_event (propagate destination event_mask : Nat) (event : xcb_client_message_event_t)
  | map_window (window : Nat)
  | set_input_focus (revert_to focus time : Nat)
  | configure_window (window value_mask : Nat) (value_list : List Nat)
  | flush
  deriving DecidableEq, Repr

/-- The error `xcb_generic_error_t`. -/
structure xcb_generic_error_t where
  error_code : Nat
  deriving DecidableEq, Repr

/-- The reply `xcb_intern_atom_reply_t`. -/
structure xcb_intern_atom_reply_t where
  atom : Nat
  deriving DecidableEq, Repr

/-- The reply `xcb_get_property_reply_t`: its `format` field (bits per
element), the byte count `xcb_get_property_value_length` reports, and the
memory at the pointer `xcb_get_property_value` returns. -/
structure xcb_get_property_reply_t where
  format : Nat
  value_length : Nat
  value : Memory

/-- Outcome of `xcb_..._reply(connection, cookie, &err)`: `err` set, or no
error and a null reply, or no error and a reply. -/
inductive Reply (α : Type) where
  | error (err : xcb_generic_error_t)
  | null
  | ok (reply : α)

/-- The X server as seen from this client: the reply to a round trip is a
function of every request written so far, the one being answered last. -/
structure XServer where
  intern_atom_reply : List Request → Reply xcb_intern_atom_reply_t
  get_property_reply : List Request → Reply xcb_get_property_reply_t

/-- A line printed to `stderr` by one of the `fprintf` calls. -/
inductive Diagnostic where
  | intern_atom (name : String) (error_code : Nat)
  | get_property (atom window error_code : Nat)
  deriving DecidableEq, Repr

/-- A call into a window descriptor made by the focus controller; `i` is the
position of the descriptor in the client list. -/
inductive DescriptorCall where
  | update (i : Nat)
  | focus (i : Nat)
  deriving DecidableEq, Repr

/-- The observable state of a run: requests written to the connection,
diagnostics printed, descriptor calls made; all oldest first. -/
structure State where
  requests : List Request
  stderr : List Diagnostic
  calls : List DescriptorCall
  deriving DecidableEq, Repr

/-- Write one request to the connection. -/
def State.send (st : State) (r : Request) : State :=
  { st with requests := st.requests ++ [r] }

/-- Print one diagnostic. -/
def State.fprintf (st : State) (d : Diagnostic) : State :=
  { st with stderr := st.stderr ++ [d] }

/-- Record one descriptor call. -/
def State.call (st : State) (c : DescriptorCall) : State :=
  { st with calls := st.calls ++ [c] }

/-- The round trip `xcb_intern_atom` followed by `xcb_intern_atom_reply`. -/
def xcb_intern_atom (X : XServer) (st : State) (only_if_exists name_len : Nat) (name : String) :
    Reply xcb_intern_atom_reply_t × State :=
  let st1 := st.send (Request.intern_atom only_if_exists name_len name)
  (X.intern_atom_reply st1.requests, st1)

/-- The round trip `xcb_get_property` followed by `xcb_get_property_reply`. -/
def xcb_get_property (X : XServer) (st : State)
    (delete window property type long_offset long_length : Nat) :
    Reply xcb_get_property_reply_t × State :=
  let st1 := st.send (Request.get_property delete window property type long_offset long_length)
  (X.get_property_reply st1.requests, st1)

/-! ## `xcb_atom` -/

/-- The function `xcb_atom::get_atom` (lines 15-38). -/
def xcb_atom.get_atom (X : XServer) (st : State) (name : String) : Nat × State :=
  let atom := XCB_ATOM_NONE
  let q := xcb_intern_atom X st 1 (name.length % 65536) name
  match q.1 with
  | .error err => (atom, q.2.fprintf (Diagnostic.intern_atom name err.error_code))
  | .null => (atom, q.2)
  | .ok atom_reply => (atom_reply.atom, q.2)

/-! ## `xcb_window` -/

/-- The data members of `xcb_window` (lines 43-54). The `connection` pointer is
the `State` threaded through the operations. -/
structure xcb_window where
  wm_class_atom : Nat
  net_wm_name_atom : Nat
  net_wm_desktop_atom : Nat
  net_current_desktop_atom : Nat
  window : Nat
  root_window : Nat
  wm_title : Bytes
  wm_class : Bytes
  wm_instance : Bytes
  wm_desktop : Nat
  deriving DecidableEq, Repr

/-- The constructor `xcb_window::xcb_window` (lines 57-64), named `create`
here because the type holds the name. The three strings
are default-constructed, hence empty. `wm_desktop` has no initializer in the
member list or the body, so it holds whatever its storage held:
`indeterminate`, as a `uint32_t`. -/
def xcb_window.create (X : XServer) (st : State) (win root indeterminate : Nat) :
    xcb_window × State :=
  let a1 := xcb_atom.get_atom X st "WM_CLASS"
  let a2 := xcb_atom.get_atom X a1.2 "_NET_WM_NAME"
  let a3 := xcb_atom.get_atom X a2.2 "_NET_WM_DESKTOP"
  let a4 := xcb_atom.get_atom X a3.2 "_NET_CURRENT_DESKTOP"
  ({ wm_class_atom := a1.1, net_wm_name_atom := a2.1, net_wm_desktop_atom := a3.1,
     net_current_desktop_atom := a4.1, window := win, root_window := root,
     wm_title := [], wm_class := [], wm_instance := [],
     wm_desktop := indeterminate % 4294967296 }, a4.2)

/-- The accessor `wmWindow`. -/
def xcb_window.wmWindow (w : xcb_window) : Nat := w.window

/-- The accessor `wmTitle`. -/
def xcb_window.wmTitle (w : xcb_window) : Bytes := w.wm_title

/-- The accessor `wmClass`. -/
def xcb_window.wmClass (w : xcb_window) : Bytes := w.wm_class

/-- The accessor `wmInstance`. -/
def xcb_window.wmInstance (w : xcb_window) : Bytes := w.wm_instance

/-- The accessor `wmDesktop`. -/
def xcb_window.wmDesktop (w : xcb_window) : Nat := w.wm_desktop

/-- The predicate `hasTitle` (lines 125-128). -/
def xcb_window.hasTitle (w : xcb_window) (title : Bytes) : Bool :=
  w.wm_title == title

/-- The predicate `hasClass` (lines 130-133). -/
def xcb_window.hasClass (w : xcb_window) (clas inst : Bytes) : Bool :=
  w.wm_class == clas && w.wm_instance == inst

/-- The `while (bytes < value_len)` loop of `get_window_property_class`
(lines 160-167). `prop` is the offset of the moving pointer from the start of
the value; the source advances it together with `bytes`, and passes the whole
`value_len` to `strnlen` in every round. -/
def class_loop (value_len : Nat) (mem : Memory) (bytes prop : Nat)
    (class_instance : List Bytes) : List Bytes :=
  if bytes < value_len then
    let s := std_string mem prop (strnlen mem prop value_len)
    let size := s.length + 1
    class_loop value_len mem (bytes + size) (prop + size) (class_instance ++ [s])
  else
    class_instance
termination_by value_len - bytes
decreasing_by
  simp_wf
  omega

/-- The function `get_window_property_class` (lines 136-172). -/
def xcb_window.get_window_property_class (X : XServer) (w : xcb_window) (st : State) :
    List Bytes × State :=
  let class_instance : List Bytes := []
  let q := xcb_get_property X st 0 w.window w.wm_class_atom XCB_GET_PROPERTY_TYPE_ANY 0 1024
  match q.1 with
  | .error err =>
      (class_instance, q.2.fprintf (Diagnostic.get_property w.wm_class_atom w.window err.error_code))
  | .null => (class_instance, q.2)
  | .ok reply_prop =>
      let value_len := reply_prop.value_length
      if value_len ≠ 0 then
        (class_loop value_len reply_prop.value 0 0 class_instance, q.2)
      else
        (class_instance, q.2)

/-- The function `get_window_property_title` (lines 174-202). -/
def xcb_window.get_window_property_title (X : XServer) (w : xcb_window) (st : State) :
    Bytes × State :=
  let title : Bytes := []
  let q := xcb_get_property X st 0 w.window w.net_wm_name_atom XCB_GET_PROPERTY_TYPE_ANY 0 1024
  match q.1 with
  | .error err =>
      (title, q.2.fprintf (Diagnostic.get_property w.net_wm_name_atom w.window err.error_code))
  | .null => (title, q.2)
  | .ok reply_prop =>
      let value_len := reply_prop.value_length
      if value_len ≠ 0 then
        (std_string reply_prop.value 0 (strnlen reply_prop.value 0 value_len), q.2)
      else
        (title, q.2)

/-- The function `get_window_property_desktop` (lines 204-232). The `memcpy`
copies `sizeof(uint32_t)` = 4 bytes whenever `value_len` is not zero. -/
def xcb_window.get_window_property_desktop (X : XServer) (bo : ByteOrder) (w : xcb_window)
    (st : State) : Nat × State :=
  let desktop : Nat := 0
  let q := xcb_get_property X st 0 w.window w.net_wm_desktop_atom XCB_GET_PROPERTY_TYPE_ANY 0 128
  match q.1 with
  | .error err =>
      (desktop, q.2.fprintf (Diagnostic.get_property w.net_wm_desktop_atom w.window err.error_code))
  | .null => (desktop, q.2)
  | .ok reply_prop =>
      let value_len := reply_prop.value_length
      if value_len ≠ 0 then
        (load32 bo reply_prop.value 0, q.2)
      else
        (desktop, q.2)

/-- The method `update` (lines 72-85). -/
def xcb_window.update (X : XServer) (bo : ByteOrder) (w : xcb_window) (st : State) :
    xcb_window × State :=
  if w.window = XCB_WINDOW_NONE then (w, st)
  else
    let props := w.get_window_property_class X st
    let w1 := if h : props.1.length > 1 then { w with wm_class := props.1[1] } else w
    let w2 := if h : props.1.length > 0 then { w1 with wm_instance := props.1[0] } else w1
    let title := w2.get_window_property_title X props.2
    let w3 := { w2 with wm_title := title.1 }
    let desktop := w3.get_window_property_desktop X bo title.2
    ({ w3 with wm_desktop := desktop.1 }, desktop.2)

/-- The method `focus` (lines 87-123). `ev` is zeroed by `memset`, four of its
fields are assigned, and `memcpy` overwrites the first two payload words with
`data2`. -/
def xcb_window.focus (w : xcb_window) (st : State) : xcb_window × State :=
  if w.window = XCB_WINDOW_NONE then (w, st)
  else
    let data2 : List Nat := [w.wmDesktop, XCB_CURRENT_TIME]
    let ev0 : xcb_client_message_event_t :=
      { response_type := 0, format := 0, sequence := 0, window := 0, type := 0,
        data32 := [0, 0, 0, 0, 0] }
    let ev1 : xcb_client_message_event_t :=
      { ev0 with response_type := XCB_CLIENT_MESSAGE, window := w.root_window, format := 32,
                 type := w.net_current_desktop_atom }
    let ev : xcb_client_message_event_t :=
      { ev1 with data32 := data2 ++ ev1.data32.drop data2.length }
    let st1 := st.send (Request.send_event 0 w.root_window
      (XCB_EVENT_MASK_SUBSTRUCTURE_NOTIFY ||| XCB_EVENT_MASK_SUBSTRUCTURE_REDIRECT) ev)
    let st2 := st1.send (Request.map_window w.window)
    let st3 := st2.send (Request.set_input_focus XCB_INPUT_FOCUS_PARENT w.window XCB_CURRENT_TIME)
    let data : List Nat := [XCB_STACK_MODE_ABOVE]
    let st4 := st3.send (Request.configure_window w.window XCB_CONFIG_WINDOW_STACK_MODE data)
    (w, st4.send Request.flush)

/-! ## `xcb_desktop` -/

/-- The data members of `xcb_desktop` (lines 237-239); the connection is the
`State`. -/
structure xcb_desktop where
  net_client_list_atom : Nat
  root_window : Nat
  deriving DecidableEq, Repr

/-- The `for` loop of `get_client_list` (lines 289-292) with `n` rounds left
and counter `i`. `win` is a `xcb_window_t *`, so `win[i]` is the 32-bit word
at byte offset `4 * i`. `indet i` is what the `wm_desktop` storage of the
descriptor built in round `i` holds. -/
def client_list_loop (X : XServer) (bo : ByteOrder) (indet : Nat → Nat) (root_window : Nat)
    (win : Memory) : Nat → Nat → List xcb_window → State → List xcb_window × State
  | 0, _, windows, st => (windows, st)
  | n + 1, i, windows, st =>
      let w := xcb_window.create X st (load32 bo win (4 * i)) root_window (indet i)
      client_list_loop X bo indet root_window win n (i + 1) (windows ++ [w.1]) w.2

/-- The method `get_client_list` (lines 261-297). -/
def xcb_desktop.get_client_list (X : XServer) (bo : ByteOrder) (indet : Nat → Nat)
    (d : xcb_desktop) (st : State) : List xcb_window × State :=
  let windows : List xcb_window := []
  let q := xcb_get_property X st 0 d.root_window d.net_client_list_atom XCB_ATOM_WINDOW 0 1024
  match q.1 with
  | .error err =>
      (windows, q.2.fprintf (Diagnostic.get_property d.net_client_list_atom d.root_window
        err.error_code))
  | .null => (windows, q.2)
  | .ok reply_prop_list =>
      let bytes := reply_prop_list.format / 8
      let value_len := reply_prop_list.value_length
      if value_len ≠ 0 ∧ bytes ≠ 0 then
        client_list_loop X bo indet d.root_window reply_prop_list.value (value_len / bytes) 0
          windows q.2
      else
        (windows, q.2)

/-! ## `xcb_master` -/

/-- The data member of `xcb_master` (line 314). -/
structure xcb_master where
  desktop : xcb_desktop
  deriving DecidableEq, Repr

/-- The algorithm `std::find_if` over a vector, with a predicate that may
change the element and the state. The result is the position found (`none`
for the end iterator), the vector and the state. The position `i` of the
element is handed to the predicate so that it can name the element in the
call log. -/
def find_if {α : Type} (pred : Nat → α → State → Bool × α × State) :
    Nat → List α → State → Option Nat × List α × State
  | _, [], st => (none, [], st)
  | i, x :: rest, st =>
      let r := pred i x st
      if r.1 then (some i, r.2.1 :: rest, r.2.2)
      else
        let k := find_if pred (i + 1) rest r.2.2
        (k.1, r.2.1 :: k.2.1, k.2.2)

/-- The lambda of `focus_by_title` (lines 321-324). -/
def title_lambda (X : XServer) (bo : ByteOrder) (wmtitle : Bytes) (i : Nat) (w : xcb_window)
    (st : State) : Bool × xcb_window × State :=
  let u := w.update X bo (st.call (DescriptorCall.update i))
  (u.1.hasTitle wmtitle, u.1, u.2)

/-- The lambda of `focus_by_class` (lines 335-338). -/
def class_lambda (X : XServer) (bo : ByteOrder) (wmclass wminstance : Bytes) (i : Nat)
    (w : xcb_window) (st : State) : Bool × xcb_window × State :=
  let u := w.update X bo (st.call (DescriptorCall.update i))
  (u.1.hasClass wmclass wminstance, u.1, u.2)

/-- The call `it->focus()` on the element at position `j` of `windows`. -/
def focus_at (windows : List xcb_window) (j : Nat) (st : State) : List xcb_window × State :=
  match windows[j]? with
  | none => (windows, st)
  | some w =>
      let f := w.focus (st.call (DescriptorCall.focus j))
      (windows.set j f.1, f.2)

/-- The method `focus_by_title` (lines 317-330). The result is the local
vector `windows` at the end of the call and the state. -/
def xcb_master.focus_by_title (X : XServer) (bo : ByteOrder) (indet : Nat → Nat)
    (m : xcb_master) (wmtitle : Bytes) (st : State) : List xcb_window × State :=
  let windows := m.desktop.get_client_list X bo indet st
  let it := find_if (title_lambda X bo wmtitle) 0 windows.1 windows.2
  match it.1 with
  | none => (it.2.1, it.2.2)
  | some j => focus_at it.2.1 j it.2.2

/-- The method `focus_by_class` (lines 331-344). -/
def xcb_master.focus_by_class (X : XServer) (bo : ByteOrder) (indet : Nat → Nat)
    (m : xcb_master) (wmclass wminstance : Bytes) (st : State) : List xcb_window × State :=
  let windows := m.desktop.get_client_list X bo indet st
  let it := find_if (class_lambda X bo wmclass wminstance) 0 windows.1 windows.2
  match it.1 with
  | none => (it.2.1, it.2.2)
  | some j => focus_at it.2.1 j it.2.2

/-! ## Specification-side definitions and concrete inputs -/

/-- The byte buffer made of the segments `segs`, each followed by one NUL:
the well-formed class/instance value the specification describes. -/
def pack : List Bytes → Bytes
  | [] => []
  | s :: rest => s ++ 0 :: pack rest

/-- The memory `mem` holds the bytes `l` from offset `p` on. -/
def holds (mem : Memory) : Nat → Bytes → Prop
  | _, [] => True
  | p, x :: xs => mem p = x ∧ holds mem (p + 1) xs

/-- The state before anything has happened. -/
def State.initial : State := { requests := [], stderr := [], calls := [] }

/-- A descriptor with resolved atoms 67, 300, 301 and 302, window 0x101 on
root 0x50, and the given cached fields. -/
def sample_window (title clas inst : Bytes) (desktop : Nat) : xcb_window :=
  { wm_class_atom := 67, net_wm_name_atom := 300, net_wm_desktop_atom := 301,
    net_current_desktop_atom := 302, window := 257, root_window := 80,
    wm_title := title, wm_class := clas, wm_instance := inst, wm_desktop := desktop }

/-- A server that answers a property read by the property asked for: atom 67
(class), 300 (title), 301 (desktop index); it has no other property and
resolves no atom. -/
def props_server (class_reply title_reply desktop_reply : Reply xcb_get_property_reply_t) :
    XServer :=
  { intern_atom_reply := fun _ => Reply.null
    get_property_reply := fun history =>
      match history.getLast? with
      | some (Request.get_property _ _ 67 _ _ _) => class_reply
      | some (Request.get_property _ _ 300 _ _ _) => title_reply
      | some (Request.get_property _ _ 301 _ _ _) => desktop_reply
      | _ => Reply.null }

/-- A reply with `format`-bit elements whose value is the first `n` bytes of
the memory holding `l`. -/
def raw_reply (format n : Nat) (l : Bytes) : Reply xcb_get_property_reply_t :=
  Reply.ok { format := format, value_length := n, value := mem_of l }

/-- A server on which the title read and the desktop-index read fail with
error code 3 (bad window) and the class/instance read has no reply. -/
def failing_server : XServer :=
  props_server Reply.null (Reply.error { error_code := 3 }) (Reply.error { error_code := 3 })

/-- A descriptor that has cached the title "Old" and the desktop index 4. -/
def stale_window : xcb_window := sample_window [79, 108, 100] [] [] 4

/-- The descriptor `sample_window` with the "none" handle in place of its
window handle. -/
def none_window (title clas inst : Bytes) (desktop : Nat) : xcb_window :=
  { sample_window title clas inst desktop with window := XCB_WINDOW_NONE }

/-- The five requests of `focus`, as the specification lists them, for a
descriptor `w`. -/
def focus_requests (w : xcb_window) : List Request :=
  [ Request.send_event 0 w.root_window
      (XCB_EVENT_MASK_SUBSTRUCTURE_NOTIFY ||| XCB_EVENT_MASK_SUBSTRUCTURE_REDIRECT)
      { response_type := XCB_CLIENT_MESSAGE, format := 32, sequence := 0,
        window := w.root_window, type := w.net_current_desktop_atom,
        data32 := [w.wm_desktop, XCB_CURRENT_TIME, 0, 0, 0] },
    Request.map_window w.window,
    Request.set_input_focus XCB_INPUT_FOCUS_PARENT w.window XCB_CURRENT_TIME,
    Request.configure_window w.window XCB_CONFIG_WINDOW_STACK_MODE [XCB_STACK_MODE_ABOVE],
    Request.flush ]

/-- The reply `update` receives to its first read (class/instance) when it
starts in state `st`. -/
def class_read (X : XServer) (w : xcb_window) (st : State) : Reply xcb_get_property_reply_t :=
  (xcb_get_property X st 0 w.window w.wm_class_atom XCB_GET_PROPERTY_TYPE_ANY 0 1024).1

/-- The reply `update` receives to its second read (title), issued after the
class/instance read. -/
def title_read (X : XServer) (w : xcb_window) (st : State) : Reply xcb_get_property_reply_t :=
  (xcb_get_property X (w.get_window_property_class X st).2 0 w.window w.net_wm_name_atom
    XCB_GET_PROPERTY_TYPE_ANY 0 1024).1

/-- The reply `update` receives to its third read (desktop index), issued
after the title read. -/
def desktop_read (X : XServer) (w : xcb_window) (st : State) : Reply xcb_get_property_reply_t :=
  (xcb_get_property X (w.get_window_property_title X (w.get_window_property_class X st).2).2
    0 w.window w.net_wm_desktop_atom XCB_GET_PROPERTY_TYPE_ANY 0 128).1

/-- The value of a reply: the `value_length` bytes at the value pointer, and
nothing after them. -/
def value_bytes (r : xcb_get_property_reply_t) : Bytes :=
  (List.range r.value_length).map r.value

/-- The text a value carries: its bytes up to the first NUL, all of them if
it has none. -/
def text_of (value : Bytes) : Bytes :=
  value.takeWhile (fun b => b != 0)

/-- The 32-bit word in the first four bytes of a value of four bytes or
more. -/
def word_of (bo : ByteOrder) (value : Bytes) : Nat :=
  load32 bo (mem_of value) 0

/-- A server that resolves the five property names the program uses to the
atoms 67, 300, 301, 302 and 303, and has no property. -/
def atoms_server : XServer :=
  { intern_atom_reply := fun history =>
      match history.getLast? with
      | some (Request.intern_atom _ _ name) =>
          if name = "WM_CLASS" then Reply.ok { atom := 67 }
          else if name = "_NET_WM_NAME" then Reply.ok { atom := 300 }
          else if name = "_NET_WM_DESKTOP" then Reply.ok { atom := 301 }
          else if name = "_NET_CURRENT_DESKTOP" then Reply.ok { atom := 302 }
          else if name = "_NET_CLIENT_LIST" then Reply.ok { atom := 303 }
          else Reply.error { error_code := 5 }
      | _ => Reply.null
    get_property_reply := fun _ => Reply.null }

/-- The server `atoms_server` with one property: the client list (atom 303)
on every window, answered with `list_reply`. -/
def list_server (list_reply : Reply xcb_get_property_reply_t) : XServer :=
  { intern_atom_reply := atoms_server.intern_atom_reply
    get_property_reply := fun history =>
      match history.getLast? with
      | some (Request.get_property _ _ 303 _ _ _) => list_reply
      | _ => Reply.null }

/-- An enumerator with client-list atom 303 and root window 80. -/
def sample_desktop : xcb_desktop := { net_client_list_atom := 303, root_window := 80 }

/-- The specification's refresh of a whole list: `update` is called on every
descriptor of `ws` once, in list order, each call on the state the previous
one left; `i` is the position of the head of `ws` in the client list. The
result is the refreshed descriptors and the state after the last call. -/
def refresh_all (X : XServer) (bo : ByteOrder) :
    Nat → List xcb_window → State → List xcb_window × State
  | _, [], st => ([], st)
  | i, w :: rest, st =>
      let u := w.update X bo (st.call (DescriptorCall.update i))
      let r := refresh_all X bo (i + 1) rest u.2
      (u.1 :: r.1, r.2)

/-- What the specification says of a `focus_by_*` call, for a match test `P`.
`ws` is the client list the call fetched, `st` the state after the fetch,
`result` the vector and the state the call ends with.

Either there is a position `j` such that, after `update` has been called on
the descriptors `0 .. j` in order (`refresh_all` of the first `j + 1`
descriptors), the refreshed descriptor `w` at `j` passes `P` and no refreshed
descriptor before it does; the vector is then those refreshed descriptors
followed by the descriptors after `j` as fetched; the final state is the
state `focus` on `w` leaves when called after those updates, so that nothing
else was written; if `w` has a handle, the requests are those of the updates
followed by the five requests of `focus`; and the calls made are
`update 0 .. update j`, `focus j`.

Or no refreshed descriptor passes `P`; vector and state are then exactly
those of `update` called on every descriptor in order, and the calls made are
`update 0 .. update (N - 1)`. -/
def scan_outcome (X : XServer) (bo : ByteOrder) (P : xcb_window → Prop)
    (ws : List xcb_window) (st : State) (result : List xcb_window × State) : Prop :=
  (∃ j w, j < ws.length ∧
      (refresh_all X bo 0 (ws.take (j + 1)) st).1[j]? = some w ∧ P w ∧
      (∀ i, i < j → ∀ v, (refresh_all X bo 0 (ws.take (j + 1)) st).1[i]? = some v → ¬ P v) ∧
      result.1 = (refresh_all X bo 0 (ws.take (j + 1)) st).1 ++ ws.drop (j + 1) ∧
      result.2 =
        (w.focus ((refresh_all X bo 0 (ws.take (j + 1)) st).2.call (DescriptorCall.focus j))).2 ∧
      (w.window ≠ XCB_WINDOW_NONE →
        result.2.requests =
          (refresh_all X bo 0 (ws.take (j + 1)) st).2.requests ++ focus_requests w) ∧
      result.2.calls =
        st.calls ++ (List.range (j + 1)).map DescriptorCall.update ++ [DescriptorCall.focus j]) ∨
  ((∀ w ∈ (refresh_all X bo 0 ws st).1, ¬ P w) ∧
      result = refresh_all X bo 0 ws st ∧
      result.2.calls = st.calls ++ (List.range ws.length).map DescriptorCall.update)

/-- The scenario of the specification: the client list holds the windows 257
and 258 (32-bit elements), titled "Terminal" and "Editor"; atoms resolve as
on `atoms_server`. -/
def scenario_server : XServer :=
  { intern_atom_reply := atoms_server.intern_atom_reply
    get_property_reply := fun history =>
      match history.getLast? with
      | some (Request.get_property _ 80 303 _ _ _) => raw_reply 32 8 [1, 1, 0, 0, 2, 1, 0, 0]
      | some (Request.get_property _ 257 300 _ _ _) =>
          raw_reply 8 8 [84, 101, 114, 109, 105, 110, 97, 108]
      | some (Request.get_property _ 258 300 _ _ _) =>
          raw_reply 8 6 [69, 100, 105, 116, 111, 114]
      | _ => Reply.null }

/-! ## Library functions -/

theorem holds_of_index (mem : Memory) (l : Bytes) :
    ∀ p : Nat, (∀ i (h : i < l.length), mem (p + i) = l[i]) → holds mem p l := by
  induction l with
  | nil => intro p _; trivial
  | cons x xs ih =>
    intro p h
    refine ⟨?_, ih (p + 1) ?_⟩
    · simpa using h 0 (by simp)
    · intro i hi
      have := h (i + 1) (by simpa using hi)
      simpa [Nat.add_assoc, Nat.add_comm 1 i] using this

theorem holds_append (mem : Memory) (a b : Bytes) :
    ∀ p : Nat, holds mem p (a ++ b) ↔ holds mem p a ∧ holds mem (p + a.length) b := by
  induction a with
  | nil => intro p; simp [holds]
  | cons x xs ih =>
    intro p
    have e : p + 1 + xs.length = p + (xs.length + 1) := by omega
    have h := ih (p + 1)
    rw [e] at h
    show mem p = x ∧ holds mem (p + 1) (xs ++ b) ↔ _
    rw [h]
    simp only [holds, List.length_cons]
    tauto

theorem strnlen_le (mem : Memory) (maxlen : Nat) : ∀ p : Nat, strnlen mem p maxlen ≤ maxlen := by
  induction maxlen with
  | zero => intro p; simp [strnlen]
  | succ n ih =>
    intro p
    unfold strnlen
    split
    · omega
    · have := ih (p + 1); omega

theorem std_string_length (mem : Memory) (len : Nat) :
    ∀ p : Nat, (std_string mem p len).length = len := by
  induction len with
  | zero => intro p; rfl
  | succ n ih => intro p; simp [std_string, ih]

/-- On memory that holds a run `s` of non-NUL bytes followed by a NUL,
`strnlen` with a limit above `s.length` returns `s.length`. -/
theorem strnlen_segment (mem : Memory) (s : Bytes) (hs : ∀ x ∈ s, x ≠ 0) :
    ∀ (p maxlen : Nat), holds mem p (s ++ [0]) → s.length < maxlen →
      strnlen mem p maxlen = s.length := by
  induction s with
  | nil =>
    intro p maxlen h hlt
    obtain ⟨n, rfl⟩ : ∃ n, maxlen = n + 1 := ⟨maxlen - 1, by simp at hlt; omega⟩
    have h0 : mem p = 0 := h.1
    simp [strnlen, h0]
  | cons x xs ih =>
    intro p maxlen h hlt
    obtain ⟨n, rfl⟩ : ∃ n, maxlen = n + 1 := ⟨maxlen - 1, by simp at hlt; omega⟩
    have hx : mem p = x := h.1
    have hx0 : x ≠ 0 := hs x (by simp)
    have hrec := ih (fun y hy => hs y (by simp [hy])) (p + 1) n h.2 (by simpa using hlt)
    simp [strnlen, hx, hx0, hrec]

theorem std_string_of_holds (mem : Memory) (s : Bytes) :
    ∀ p : Nat, holds mem p s → std_string mem p s.length = s := by
  induction s with
  | nil => intro p _; rfl
  | cons x xs ih =>
    intro p h
    simp [std_string, h.1, ih (p + 1) h.2]

/-! ## The class/instance parser -/

theorem class_loop_done (value_len : Nat) (mem : Memory) (bytes prop : Nat) (acc : List Bytes)
    (h : ¬ bytes < value_len) : class_loop value_len mem bytes prop acc = acc := by
  rw [class_loop]; simp [h]

theorem class_loop_step (value_len : Nat) (mem : Memory) (bytes prop : Nat) (acc : List Bytes)
    (h : bytes < value_len) :
    class_loop value_len mem bytes prop acc =
      class_loop value_len mem (bytes + (strnlen mem prop value_len + 1))
        (prop + (strnlen mem prop value_len + 1))
        (acc ++ [std_string mem prop (strnlen mem prop value_len)]) := by
  rw [class_loop]; simp [h, std_string_length]

/-- The loop on a well-formed buffer: started at the head of the segments
`segs`, it appends exactly `segs` to what it has collected. -/
theorem class_loop_pack (mem : Memory) (segs : List Bytes)
    (hs : ∀ s ∈ segs, ∀ x ∈ s, x ≠ 0) :
    ∀ (b value_len : Nat) (acc : List Bytes), holds mem b (pack segs) →
      value_len = b + (pack segs).length →
      class_loop value_len mem b b acc = acc ++ segs := by
  induction segs with
  | nil =>
    intro b value_len acc _ hv
    rw [class_loop_done _ _ _ _ _ (by simp [pack] at hv; omega)]
    simp
  | cons s rest ih =>
    intro b value_len acc hm hv
    have hm2 : holds mem b ((s ++ [0]) ++ pack rest) := by simpa [pack] using hm
    rw [holds_append] at hm2
    have hlen : (pack (s :: rest)).length = s.length + 1 + (pack rest).length := by
      simp [pack]; omega
    have hn : strnlen mem b value_len = s.length :=
      strnlen_segment mem s (hs s (by simp)) b value_len hm2.1 (by omega)
    have hstr : std_string mem b s.length = s := by
      have := (holds_append mem s [0] b).1 hm2.1
      exact std_string_of_holds mem s b this.1
    rw [class_loop_step _ _ _ _ _ (by omega), hn, hstr]
    rw [ih (fun t ht => hs t (by simp [ht])) (b + (s.length + 1)) value_len (acc ++ [s])
      (by simpa using hm2.2) (by omega)]
    simp

/-- The parser loop is bounded: it is a total function, and from `bytes` on it
adds at most `value_len - bytes` strings, since every round advances `bytes`
by at least one. -/
theorem class_loop_rounds (value_len : Nat) (mem : Memory) :
    ∀ (n bytes prop : Nat) (acc : List Bytes), value_len - bytes = n →
      (class_loop value_len mem bytes prop acc).length ≤ acc.length + n := by
  intro n
  induction n using Nat.strong_induction_on with
  | _ n ih =>
    intro bytes prop acc hn
    by_cases h : bytes < value_len
    · rw [class_loop_step _ _ _ _ _ h]
      have := ih (value_len - (bytes + (strnlen mem prop value_len + 1))) (by omega)
        (bytes + (strnlen mem prop value_len + 1)) (prop + (strnlen mem prop value_len + 1))
        (acc ++ [std_string mem prop (strnlen mem prop value_len)]) rfl
      simp only [List.length_append, List.length_singleton] at this
      omega
    · rw [class_loop_done _ _ _ _ _ h]
      omega

/-- C2: when the class/instance read succeeds with a value that is `k`
segments of non-NUL bytes, each followed by one NUL, and the declared value
length is the length of that buffer, `get_window_property_class` returns
exactly those `k` segments, without terminators, in source order. -/
theorem C2_class_parser_well_formed (X : XServer) (w : xcb_window) (st : State)
    (segs : List Bytes) (r : xcb_get_property_reply_t)
    (hseg : ∀ s ∈ segs, ∀ x ∈ s, x ≠ 0)
    (hreply : (xcb_get_property X st 0 w.window w.wm_class_atom
      XCB_GET_PROPERTY_TYPE_ANY 0 1024).1 = Reply.ok r)
    (hlen : r.value_length = (pack segs).length)
    (hval : ∀ i (h : i < (pack segs).length), r.value i = (pack segs)[i]) :
    (w.get_window_property_class X st).1 = segs := by
  have hm : holds r.value 0 (pack segs) :=
    holds_of_index r.value (pack segs) 0 (fun i h => by simpa using hval i h)
  unfold xcb_window.get_window_property_class
  simp only [hreply]
  by_cases h0 : r.value_length = 0
  · have hp : pack segs = [] := List.eq_nil_of_length_eq_zero (by omega)
    have : segs = [] := by
      cases segs with
      | nil => rfl
      | cons s rest => simp [pack] at hp
    simp [h0, this]
  · simp only [ne_eq, h0, not_false_eq_true, if_true]
    have := class_loop_pack r.value segs hseg 0 r.value_length [] hm (by omega)
    simpa using this

/-- Witness of C2: the value "xterm", NUL, "XTerm", NUL parses to the two
segments "xterm" and "XTerm". -/
theorem C2_class_parser_well_formed_witness :
    ((sample_window [] [] []  0).get_window_property_class
      (props_server (raw_reply 8 12 [120, 116, 101, 114, 109, 0, 88, 84, 101, 114, 109, 0])
        Reply.null Reply.null) State.initial).1
      = [[120, 116, 101, 114, 109], [88, 84, 101, 114, 109]] :=
  C2_class_parser_well_formed _ _ _ [[120, 116, 101, 114, 109], [88, 84, 101, 114, 109]]
    { format := 8, value_length := 12,
      value := mem_of [120, 116, 101, 114, 109, 0, 88, 84, 101, 114, 109, 0] }
    (by decide) rfl rfl (by decide)

/-- C10, the code at the failing input: the declared value is the 3 bytes
'a', NUL, 'b'. The second round calls `strnlen` with limit 3 at offset 2, so
it looks at offsets 3 and 4. With the bytes 'c', NUL after the value the
parser returns "a" and "bc"; with a NUL right after the value it returns "a"
and "b". The two memories agree on the three bytes of the value, so the
result depends on bytes at offsets 3 and above, and "bc" is no slice of the
value. -/
theorem C10_parser_reads_past_value :
    (∀ i, i < 3 → mem_of [97, 0, 98, 99, 0] i = mem_of [97, 0, 98] i) ∧
    ((sample_window [] [] [] 0).get_window_property_class
      (props_server (raw_reply 8 3 [97, 0, 98, 99, 0]) Reply.null Reply.null) State.initial).1
      = [[97], [98, 99]] ∧
    ((sample_window [] [] [] 0).get_window_property_class
      (props_server (raw_reply 8 3 [97, 0, 98]) Reply.null Reply.null) State.initial).1
      = [[97], [98]] := by
  refine ⟨by decide, ?_, ?_⟩ <;>
  simp [xcb_window.get_window_property_class, xcb_get_property, props_server, raw_reply,
    sample_window, State.initial, State.send, XCB_GET_PROPERTY_TYPE_ANY, class_loop, strnlen,
    std_string, mem_of]

/-! ## `update` and `focus` on one descriptor -/

/-- C3: on a descriptor whose handle is not the none sentinel, `focus` writes
exactly the five requests of `focus_requests` (send-event to the root with the
desktop-switch client message, map-window, set-input-focus, configure-window
with stack mode above, flush), in that order, prints nothing, and returns the
descriptor as it was. -/
theorem C3_focus_requests (w : xcb_window) (st : State) (h : w.window ≠ XCB_WINDOW_NONE) :
    w.focus st = (w, { st with requests := st.requests ++ focus_requests w }) := by
  simp [xcb_window.focus, h, State.send, focus_requests, xcb_window.wmDesktop]

/-- Witness of C3: the sample descriptor with cached desktop index 2. -/
theorem C3_focus_requests_witness :
    (sample_window [] [] [] 2).focus State.initial =
      (sample_window [] [] [] 2,
        { State.initial with
          requests := State.initial.requests ++ focus_requests (sample_window [] [] [] 2) }) :=
  C3_focus_requests (sample_window [] [] [] 2) State.initial (by decide)

/-- C7: on a descriptor whose handle is the none sentinel, `update` returns the
descriptor and the state unchanged (no property read is written, no cached
field changes) and so does `focus` (no request is written), whatever the
server would reply. -/
theorem C7_none_handle_inert (X : XServer) (bo : ByteOrder) (w : xcb_window) (st : State)
    (h : w.window = XCB_WINDOW_NONE) :
    w.update X bo st = (w, st) ∧ w.focus st = (w, st) := by
  simp [xcb_window.update, xcb_window.focus, h]

/-- Witness of C7: a none-handle descriptor with cached title "Old", class
"b", instance "a" and desktop index 4, on a server that would answer. -/
theorem C7_none_handle_inert_witness :
    (none_window [79, 108, 100] [98] [97] 4).update
        (props_server (raw_reply 8 2 [120, 0]) (raw_reply 8 1 [121]) (raw_reply 8 4 [1, 0, 0, 0]))
        ByteOrder.little State.initial
      = (none_window [79, 108, 100] [98] [97] 4, State.initial) ∧
    (none_window [79, 108, 100] [98] [97] 4).focus State.initial
      = (none_window [79, 108, 100] [98] [97] 4, State.initial) :=
  C7_none_handle_inert _ _ (none_window [79, 108, 100] [98] [97] 4) State.initial rfl

/-- C9: on a descriptor with a handle other than none, if the class/instance
read yields the segments `s`, then after `update`: with two or more segments
the cached instance is `s[0]` and the cached class is `s[1]`; with exactly one
the cached instance is `s[0]` and the class is unchanged; with none both are
unchanged. -/
theorem C9_update_class_instance (X : XServer) (bo : ByteOrder) (w : xcb_window) (st : State)
    (h : w.window ≠ XCB_WINDOW_NONE) :
    (∀ a b rest, (w.get_window_property_class X st).1 = a :: b :: rest →
      (w.update X bo st).1.wm_instance = a ∧ (w.update X bo st).1.wm_class = b) ∧
    (∀ a, (w.get_window_property_class X st).1 = [a] →
      (w.update X bo st).1.wm_instance = a ∧ (w.update X bo st).1.wm_class = w.wm_class) ∧
    ((w.get_window_property_class X st).1 = [] →
      (w.update X bo st).1.wm_instance = w.wm_instance ∧
      (w.update X bo st).1.wm_class = w.wm_class) := by
  refine ⟨?_, ?_, ?_⟩
  · intro a b rest hs
    simp [xcb_window.update, h, hs]
  · intro a hs
    simp [xcb_window.update, h, hs]
  · intro hs
    simp [xcb_window.update, h, hs]

/-- The title read uses the window handle and the title atom only. -/
theorem get_window_property_title_congr (X : XServer) (w v : xcb_window) (st : State)
    (hw : v.window = w.window) (ha : v.net_wm_name_atom = w.net_wm_name_atom) :
    v.get_window_property_title X st = w.get_window_property_title X st := by
  simp [xcb_window.get_window_property_title, hw, ha]

/-- The desktop-index read uses the window handle and the desktop atom only. -/
theorem get_window_property_desktop_congr (X : XServer) (bo : ByteOrder) (w v : xcb_window)
    (st : State) (hw : v.window = w.window)
    (ha : v.net_wm_desktop_atom = w.net_wm_desktop_atom) :
    v.get_window_property_desktop X bo st = w.get_window_property_desktop X bo st := by
  simp [xcb_window.get_window_property_desktop, hw, ha]

/-- The method `update` on a descriptor with a handle, in one expression: the
three reads in order, class and instance taken from the segments when present,
title and desktop index always assigned. -/
theorem update_eq (X : XServer) (bo : ByteOrder) (w : xcb_window) (st : State)
    (h : w.window ≠ XCB_WINDOW_NONE) :
    w.update X bo st =
      ({ w with
          wm_class := (w.get_window_property_class X st).1.getD 1 w.wm_class
          wm_instance := (w.get_window_property_class X st).1.getD 0 w.wm_instance
          wm_title :=
            (w.get_window_property_title X (w.get_window_property_class X st).2).1
          wm_desktop :=
            (w.get_window_property_desktop X bo
              (w.get_window_property_title X (w.get_window_property_class X st).2).2).1 },
        (w.get_window_property_desktop X bo
          (w.get_window_property_title X (w.get_window_property_class X st).2).2).2) := by
  unfold xcb_window.update
  simp only [h, if_false]
  rcases hs : (w.get_window_property_class X st).1 with _ | ⟨a, _ | ⟨b, rest⟩⟩ <;>
  simp [xcb_window.get_window_property_title, xcb_window.get_window_property_desktop]

/-- Witness of C9: the class/instance value "x", NUL, "X", NUL sets the
instance to "x" and the class to "X". -/
theorem C9_update_class_instance_witness :
    ((sample_window [] [] [] 0).update
        (props_server (raw_reply 8 4 [120, 0, 88, 0]) Reply.null Reply.null)
        ByteOrder.little State.initial).1.wm_instance = [120] ∧
    ((sample_window [] [] [] 0).update
        (props_server (raw_reply 8 4 [120, 0, 88, 0]) Reply.null Reply.null)
        ByteOrder.little State.initial).1.wm_class = [88] :=
  (C9_update_class_instance (props_server (raw_reply 8 4 [120, 0, 88, 0]) Reply.null Reply.null)
    ByteOrder.little (sample_window [] [] [] 0) State.initial (by decide)).1 [120] [88] []
    (by simp [xcb_window.get_window_property_class, xcb_get_property, props_server, raw_reply,
          sample_window, State.initial, State.send, XCB_GET_PROPERTY_TYPE_ANY, class_loop,
          strnlen, std_string, mem_of])

/-- C5 as stated fails: on `failing_server` the title read and the
desktop-index read of `update` return a protocol error, the descriptor had
cached the title "Old" and the desktop index 4, and after `update` the title
is empty and the desktop index is 0. -/
theorem C5_error_resets_title_and_desktop :
    title_read failing_server stale_window State.initial = Reply.error { error_code := 3 } ∧
    desktop_read failing_server stale_window State.initial = Reply.error { error_code := 3 } ∧
    stale_window.wm_title = [79, 108, 100] ∧
    stale_window.wm_desktop = 4 ∧
    (stale_window.update failing_server ByteOrder.little State.initial).1.wm_title = [] ∧
    (stale_window.update failing_server ByteOrder.little State.initial).1.wm_desktop = 0 := by
  refine ⟨rfl, rfl, rfl, rfl, ?_, ?_⟩ <;>
  simp [xcb_window.update, xcb_window.get_window_property_class,
    xcb_window.get_window_property_title, xcb_window.get_window_property_desktop,
    xcb_get_property, failing_server, props_server, stale_window, sample_window, State.initial,
    State.send, State.fprintf, XCB_GET_PROPERTY_TYPE_ANY, XCB_WINDOW_NONE]

theorem value_bytes_holds (r : xcb_get_property_reply_t) :
    holds r.value 0 (value_bytes r) :=
  holds_of_index r.value (value_bytes r) 0 (fun i h => by simp [value_bytes])

theorem mem_of_value_bytes (r : xcb_get_property_reply_t) (i : Nat) (h : i < r.value_length) :
    mem_of (value_bytes r) i = r.value i := by
  simp [mem_of, value_bytes, List.getElem?_range h]

/-- The string cut by `strnlen` at offset `p` with limit `n` is the text of
the `n` bytes from `p`. -/
theorem std_string_strnlen (mem : Memory) (n : Nat) :
    ∀ p : Nat, std_string mem p (strnlen mem p n) =
      text_of ((List.range n).map (fun i => mem (p + i))) := by
  induction n with
  | zero => intro p; simp [strnlen, std_string, text_of]
  | succ n ih =>
    intro p
    rw [List.range_succ_eq_map]
    by_cases h0 : mem p = 0
    · simp [strnlen, std_string, text_of, h0]
    · have hrec := ih (p + 1)
      simp only [text_of] at hrec
      simp [strnlen, std_string, text_of, h0, hrec, Function.comp_def, Nat.add_assoc,
        Nat.add_comm 1]

/-- C5, amended: on a descriptor with a handle, a class/instance read that
errors leaves the cached class and instance as they were; a title read that
errors leaves the cached title empty; a desktop-index read that errors leaves
the cached desktop index 0. A read that succeeds sets its field from the
reply value: for a value made of NUL-terminated segments the instance is the
first segment and the class the second, each where present; the title is the
value up to its first NUL; the desktop index is 0 for an empty value and the
32-bit word in the first four bytes for a value of four bytes or more.
Nothing is said of a desktop value of 1 to 3 bytes or of a class/instance
value whose last segment has no NUL. -/
theorem C5_update_per_read (X : XServer) (bo : ByteOrder) (w : xcb_window) (st : State)
    (h : w.window ≠ XCB_WINDOW_NONE) :
    (∀ e, class_read X w st = Reply.error e →
      (w.update X bo st).1.wm_class = w.wm_class ∧
      (w.update X bo st).1.wm_instance = w.wm_instance) ∧
    (∀ e, title_read X w st = Reply.error e → (w.update X bo st).1.wm_title = []) ∧
    (∀ e, desktop_read X w st = Reply.error e → (w.update X bo st).1.wm_desktop = 0) ∧
    (∀ r segs, class_read X w st = Reply.ok r → (∀ s ∈ segs, ∀ x ∈ s, x ≠ 0) →
      value_bytes r = pack segs →
      (w.update X bo st).1.wm_instance = segs.getD 0 w.wm_instance ∧
      (w.update X bo st).1.wm_class = segs.getD 1 w.wm_class) ∧
    (∀ r, title_read X w st = Reply.ok r →
      (w.update X bo st).1.wm_title = text_of (value_bytes r)) ∧
    (∀ r, desktop_read X w st = Reply.ok r →
      (r.value_length = 0 → (w.update X bo st).1.wm_desktop = 0) ∧
      (4 ≤ r.value_length → (w.update X bo st).1.wm_desktop = word_of bo (value_bytes r))) := by
  rw [update_eq X bo w st h]
  refine ⟨?_, ?_, ?_, ?_, ?_, ?_⟩
  · intro e he
    have hs : (w.get_window_property_class X st).1 = [] := by
      unfold class_read at he
      simp [xcb_window.get_window_property_class, he]
    simp [hs]
  · intro e he
    unfold title_read at he
    simp [xcb_window.get_window_property_title, he]
  · intro e he
    unfold desktop_read at he
    simp [xcb_window.get_window_property_desktop, he]
  · intro r segs hr hseg hv
    have hlen : r.value_length = (pack segs).length := by
      rw [← hv]; simp [value_bytes]
    have hm : holds r.value 0 (pack segs) := by
      rw [← hv]; exact value_bytes_holds r
    have hs : (w.get_window_property_class X st).1 = segs := by
      unfold class_read at hr
      simp only [xcb_window.get_window_property_class, hr]
      by_cases h0 : r.value_length = 0
      · have hp : pack segs = [] := List.eq_nil_of_length_eq_zero (by omega)
        have : segs = [] := by
          cases segs with
          | nil => rfl
          | cons s rest => simp [pack] at hp
        simp [h0, this]
      · simp only [ne_eq, h0, not_false_eq_true, if_true]
        have := class_loop_pack r.value segs hseg 0 r.value_length [] hm (by omega)
        simpa using this
    simp [hs]
  · intro r hr
    unfold title_read at hr
    simp only [xcb_window.get_window_property_title, hr]
    by_cases h0 : r.value_length = 0
    · simp [h0, value_bytes, text_of]
    · simp only [ne_eq, h0, not_false_eq_true, if_true]
      have := std_string_strnlen r.value r.value_length 0
      simpa [value_bytes] using this
  · intro r hr
    unfold desktop_read at hr
    simp only [xcb_window.get_window_property_desktop, hr]
    constructor
    · intro h0
      simp [h0]
    · intro h4
      have h0 : r.value_length ≠ 0 := by omega
      simp only [ne_eq, h0, not_false_eq_true, if_true]
      cases bo <;>
      simp [word_of, load32, mem_of_value_bytes r 0 (by omega), mem_of_value_bytes r 1 (by omega),
        mem_of_value_bytes r 2 (by omega), mem_of_value_bytes r 3 (by omega)]

/-- Witness of C5 (amended): on `failing_server` the title of the descriptor
that had cached "Old" is empty after `update`; on a server whose title read
succeeds with the value "O", NUL, "K" the title becomes "O". -/
theorem C5_update_per_read_witness :
    (stale_window.update failing_server ByteOrder.little State.initial).1.wm_title = [] ∧
    (stale_window.update (props_server Reply.null (raw_reply 8 3 [79, 0, 75]) Reply.null)
      ByteOrder.little State.initial).1.wm_title = [79] :=
  ⟨(C5_update_per_read failing_server ByteOrder.little stale_window State.initial
      (by decide)).2.1 { error_code := 3 } rfl,
    (C5_update_per_read (props_server Reply.null (raw_reply 8 3 [79, 0, 75]) Reply.null)
      ByteOrder.little stale_window State.initial (by decide)).2.2.2.2.1
      { format := 8, value_length := 3, value := mem_of [79, 0, 75] } rfl⟩

/-- C6, the code at the failing input: the descriptor has cached the desktop
index 3 and the desktop-index read succeeds with a value of length 1, the
byte 5. `memcpy` copies four bytes, so the three bytes after the value enter
the result: with zero bytes there the cached index becomes 5 on a
little-endian host and 83886080 on a big-endian one, with the bytes 1, 0, 0
it becomes 261; in no case does it stay 3. The two memories agree on the one
byte of the value. -/
theorem C6_short_desktop_value :
    (∀ i, i < 1 → mem_of [5, 0, 0, 0] i = mem_of [5, 1, 0, 0] i) ∧
    ((sample_window [] [] [] 3).update
        (props_server Reply.null Reply.null (raw_reply 8 1 [5, 0, 0, 0]))
        ByteOrder.little State.initial).1.wm_desktop = 5 ∧
    ((sample_window [] [] [] 3).update
        (props_server Reply.null Reply.null (raw_reply 8 1 [5, 1, 0, 0]))
        ByteOrder.little State.initial).1.wm_desktop = 261 ∧
    ((sample_window [] [] [] 3).update
        (props_server Reply.null Reply.null (raw_reply 8 1 [5, 0, 0, 0]))
        ByteOrder.big State.initial).1.wm_desktop = 83886080 := by
  refine ⟨by decide, ?_, ?_, ?_⟩ <;>
  simp [xcb_window.update, xcb_window.get_window_property_class,
    xcb_window.get_window_property_title, xcb_window.get_window_property_desktop,
    xcb_get_property, props_server, raw_reply, sample_window, State.initial,
    State.send, XCB_GET_PROPERTY_TYPE_ANY, XCB_WINDOW_NONE, load32, mem_of]

/-- The descriptor the constructor builds: the given handles, empty strings,
and in `wm_desktop` whatever the storage held. -/
theorem create_fields (X : XServer) (st : State) (win root indeterminate : Nat) :
    (xcb_window.create X st win root indeterminate).1.window = win ∧
    (xcb_window.create X st win root indeterminate).1.root_window = root ∧
    (xcb_window.create X st win root indeterminate).1.wm_title = [] ∧
    (xcb_window.create X st win root indeterminate).1.wm_class = [] ∧
    (xcb_window.create X st win root indeterminate).1.wm_instance = [] ∧
    (xcb_window.create X st win root indeterminate).1.wm_desktop =
      indeterminate % 4294967296 := by
  simp [xcb_window.create]

/-- C8, the code at the failing input: the constructor does not initialise
`wm_desktop`. A descriptor built for window 257 on root 80 in storage that
held 7 has empty title, class and instance, but `wmDesktop` returns 7 and
`focus` on it asks for desktop 7 in its client message. -/
theorem C8_fresh_descriptor_desktop :
    (xcb_window.create atoms_server State.initial 257 80 7).1 = sample_window [] [] [] 7 ∧
    (xcb_window.create atoms_server State.initial 257 80 7).1.wmDesktop = 7 ∧
    ((xcb_window.create atoms_server State.initial 257 80 7).1.focus State.initial).2.requests
      = focus_requests (sample_window [] [] [] 7) ∧
    (focus_requests (sample_window [] [] [] 7)).head? =
      some (Request.send_event 0 80
        (XCB_EVENT_MASK_SUBSTRUCTURE_NOTIFY ||| XCB_EVENT_MASK_SUBSTRUCTURE_REDIRECT)
        { response_type := XCB_CLIENT_MESSAGE, format := 32, sequence := 0, window := 80,
          type := 302, data32 := [7, XCB_CURRENT_TIME, 0, 0, 0] }) := by
  have hc : (xcb_window.create atoms_server State.initial 257 80 7).1 = sample_window [] [] [] 7 := by
    simp [xcb_window.create, xcb_atom.get_atom, xcb_intern_atom, atoms_server, State.initial,
      State.send, sample_window]
  refine ⟨hc, ?_, ?_, ?_⟩
  · rw [hc]; rfl
  · rw [hc]; rfl
  · rfl

/-! ## The client list -/

theorem get_atom_calls (X : XServer) (st : State) (name : String) :
    (xcb_atom.get_atom X st name).2.calls = st.calls := by
  unfold xcb_atom.get_atom
  dsimp only
  split <;> simp [xcb_intern_atom, State.send, State.fprintf]

theorem create_calls (X : XServer) (st : State) (win root indeterminate : Nat) :
    (xcb_window.create X st win root indeterminate).2.calls = st.calls := by
  simp [xcb_window.create, get_atom_calls]

/-- The loop of `get_client_list` appends one descriptor per round: round `k`
builds it from the 32-bit word at byte offset `4 * k`, on the given root. -/
theorem client_list_loop_windows (X : XServer) (bo : ByteOrder) (indet : Nat → Nat)
    (root : Nat) (win : Memory) :
    ∀ (n i : Nat) (windows : List xcb_window) (st : State),
      (client_list_loop X bo indet root win n i windows st).1.map
          (fun w => (w.window, w.root_window)) =
        windows.map (fun w => (w.window, w.root_window)) ++
          (List.range' i n).map (fun k => (load32 bo win (4 * k), root)) := by
  intro n
  induction n with
  | zero => intro i windows st; simp [client_list_loop]
  | succ n ih =>
    intro i windows st
    rw [client_list_loop, ih]
    simp [List.range'_succ, (create_fields X st _ root (indet i)).1,
      (create_fields X st _ root (indet i)).2.1]

theorem client_list_loop_calls (X : XServer) (bo : ByteOrder) (indet : Nat → Nat)
    (root : Nat) (win : Memory) :
    ∀ (n i : Nat) (windows : List xcb_window) (st : State),
      (client_list_loop X bo indet root win n i windows st).2.calls = st.calls := by
  intro n
  induction n with
  | zero => intro i windows st; simp [client_list_loop]
  | succ n ih =>
    intro i windows st
    rw [client_list_loop, ih, create_calls]

theorem get_client_list_calls (X : XServer) (bo : ByteOrder) (indet : Nat → Nat)
    (d : xcb_desktop) (st : State) :
    (d.get_client_list X bo indet st).2.calls = st.calls := by
  unfold xcb_desktop.get_client_list
  dsimp only
  split
  · simp [xcb_get_property, State.send, State.fprintf]
  · simp [xcb_get_property, State.send]
  · split
    · rw [client_list_loop_calls]; simp [xcb_get_property, State.send]
    · simp [xcb_get_property, State.send]

/-- What holds of `get_client_list` for every successful reply: it returns
`L / (f / 8)` descriptors when `L` and `f / 8` are not zero and none
otherwise, all on the enumerator's root window; the handle of the `k`-th is
the 32-bit word at byte offset `4 * k` of the value, whatever `f` is. -/
theorem get_client_list_windows (X : XServer) (bo : ByteOrder) (indet : Nat → Nat)
    (d : xcb_desktop) (st : State) (r : xcb_get_property_reply_t)
    (hr : (xcb_get_property X st 0 d.root_window d.net_client_list_atom XCB_ATOM_WINDOW
      0 1024).1 = Reply.ok r) :
    (d.get_client_list X bo indet st).1.map (fun w => (w.window, w.root_window)) =
      (List.range (if r.value_length ≠ 0 ∧ r.format / 8 ≠ 0
          then r.value_length / (r.format / 8) else 0)).map
        (fun k => (load32 bo r.value (4 * k), d.root_window)) := by
  unfold xcb_desktop.get_client_list
  simp only [hr]
  split
  · rw [client_list_loop_windows]; simp [List.range_eq_range']
  · simp

/-- C4, the code at the failing input: the client-list reply has format 8 and
a value of the 2 bytes 1, 2 (two 1-byte elements), followed in memory by two
zero bytes and four bytes 9. The code returns two descriptors, as
`L / (f / 8)` says, but reads each handle as the 32-bit word `win[i]`: the
handles are 513 and 151587081 on a little-endian host (16908288 and
151587081 on a big-endian one), not 1 and 2, and six of the eight bytes read
lie after the value. -/
theorem C4_client_list_format8 :
    (sample_desktop.get_client_list
        (list_server (raw_reply 8 2 [1, 2, 0, 0, 9, 9, 9, 9]))
        ByteOrder.little (fun _ => 0) State.initial).1.map xcb_window.window
      = [513, 151587081] ∧
    (sample_desktop.get_client_list
        (list_server (raw_reply 8 2 [1, 2, 0, 0, 9, 9, 9, 9]))
        ByteOrder.big (fun _ => 0) State.initial).1.map xcb_window.window
      = [16908288, 151587081] := by
  constructor <;>
  simp [xcb_desktop.get_client_list, xcb_get_property, list_server, raw_reply, sample_desktop,
    State.initial, State.send, XCB_ATOM_WINDOW, client_list_loop, xcb_window.create,
    load32, mem_of]

/-! ## The focus controller -/

theorem get_window_property_class_calls (X : XServer) (w : xcb_window) (st : State) :
    (w.get_window_property_class X st).2.calls = st.calls := by
  unfold xcb_window.get_window_property_class
  dsimp only
  split
  · simp [xcb_get_property, State.send, State.fprintf]
  · simp [xcb_get_property, State.send]
  · split <;> simp [xcb_get_property, State.send]

theorem get_window_property_title_calls (X : XServer) (w : xcb_window) (st : State) :
    (w.get_window_property_title X st).2.calls = st.calls := by
  unfold xcb_window.get_window_property_title
  dsimp only
  split
  · simp [xcb_get_property, State.send, State.fprintf]
  · simp [xcb_get_property, State.send]
  · split <;> simp [xcb_get_property, State.send]

theorem get_window_property_desktop_calls (X : XServer) (bo : ByteOrder) (w : xcb_window)
    (st : State) : (w.get_window_property_desktop X bo st).2.calls = st.calls := by
  unfold xcb_window.get_window_property_desktop
  dsimp only
  split
  · simp [xcb_get_property, State.send, State.fprintf]
  · simp [xcb_get_property, State.send]
  · split <;> simp [xcb_get_property, State.send]

/-- The method `update` itself records no descriptor call. -/
theorem update_calls (X : XServer) (bo : ByteOrder) (w : xcb_window) (st : State) :
    (w.update X bo st).2.calls = st.calls := by
  by_cases h : w.window = XCB_WINDOW_NONE
  · simp [xcb_window.update, h]
  · rw [update_eq X bo w st h]
    simp [get_window_property_desktop_calls, get_window_property_title_calls,
      get_window_property_class_calls]

/-- The method `focus` returns the descriptor as it was and records no
descriptor call. -/
theorem focus_frame (w : xcb_window) (st : State) :
    (w.focus st).1 = w ∧ (w.focus st).2.calls = st.calls := by
  unfold xcb_window.focus
  split <;> simp [State.send]

theorem hasTitle_iff (w : xcb_window) (title : Bytes) :
    w.hasTitle title = true ↔ w.wm_title = title := by
  simp [xcb_window.hasTitle]

theorem hasClass_iff (w : xcb_window) (clas inst : Bytes) :
    w.hasClass clas inst = true ↔ w.wm_class = clas ∧ w.wm_instance = inst := by
  simp [xcb_window.hasClass]

theorem set_same {α : Type} (l : List α) :
    ∀ (j : Nat) (x : α), l[j]? = some x → l.set j x = l := by
  induction l with
  | nil => intro j x h; simp
  | cons a rest ih =>
    intro j x h
    cases j with
    | zero => simp at h; simp [h]
    | succ j => simp at h; simp [ih j x h]

theorem refresh_all_length (X : XServer) (bo : ByteOrder) :
    ∀ (ws : List xcb_window) (i : Nat) (st : State),
      (refresh_all X bo i ws st).1.length = ws.length := by
  intro ws
  induction ws with
  | nil => intro i st; rfl
  | cons w rest ih => intro i st; simp [refresh_all, ih]

theorem refresh_all_calls (X : XServer) (bo : ByteOrder) :
    ∀ (ws : List xcb_window) (i : Nat) (st : State),
      (refresh_all X bo i ws st).2.calls =
        st.calls ++ (List.range' i ws.length).map DescriptorCall.update := by
  intro ws
  induction ws with
  | nil => intro i st; simp [refresh_all]
  | cons w rest ih =>
    intro i st
    simp [refresh_all, ih, update_calls, State.call, List.range'_succ]

/-- The requests `focus` writes on a descriptor with a handle. -/
theorem focus_writes (w : xcb_window) (st : State) (h : w.window ≠ XCB_WINDOW_NONE) :
    (w.focus st).2.requests = st.requests ++ focus_requests w := by
  simp [xcb_window.focus, h, State.send, focus_requests, xcb_window.wmDesktop]

/-- The scan `find_if` with a predicate that calls `update` on the element and
answers with a test `p` of the refreshed element. Either it reaches the end:
it has then done exactly `refresh_all` of the list and no refreshed element
passes `p`. Or it stops at a position `k`: it has then done exactly
`refresh_all` of the first `k + 1` elements, the refreshed element at `k`
passes, none before it does, and the later elements are as they were. -/
theorem find_if_refresh (X : XServer) (bo : ByteOrder)
    (pred : Nat → xcb_window → State → Bool × xcb_window × State) (p : xcb_window → Bool)
    (hpred : ∀ i w st, pred i w st =
      (p (w.update X bo (st.call (DescriptorCall.update i))).1,
        (w.update X bo (st.call (DescriptorCall.update i))).1,
        (w.update X bo (st.call (DescriptorCall.update i))).2)) :
    ∀ (ws : List xcb_window) (i : Nat) (st : State),
      ((find_if pred i ws st).1 = none ∧
          (find_if pred i ws st).2 = refresh_all X bo i ws st ∧
          (∀ w ∈ (refresh_all X bo i ws st).1, p w = false)) ∨
      (∃ k, (find_if pred i ws st).1 = some (i + k) ∧ k < ws.length ∧
          (find_if pred i ws st).2.1 =
            (refresh_all X bo i (ws.take (k + 1)) st).1 ++ ws.drop (k + 1) ∧
          (find_if pred i ws st).2.2 = (refresh_all X bo i (ws.take (k + 1)) st).2 ∧
          (∃ w, (refresh_all X bo i (ws.take (k + 1)) st).1[k]? = some w ∧ p w = true) ∧
          (∀ m, m < k → ∀ v,
            (refresh_all X bo i (ws.take (k + 1)) st).1[m]? = some v → p v = false)) := by
  intro ws
  induction ws with
  | nil => intro i st; left; simp [find_if, refresh_all]
  | cons x rest ih =>
    intro i st
    by_cases hx : p (x.update X bo (st.call (DescriptorCall.update i))).1 = true
    · right
      refine ⟨0, ?_, by simp, ?_, ?_, ⟨_, ?_, hx⟩, ?_⟩
      · simp [find_if, hpred, hx]
      · simp [find_if, hpred, hx, refresh_all]
      · simp [find_if, hpred, hx, refresh_all]
      · simp [refresh_all]
      · intro m hm; omega
    · have hx' : p (x.update X bo (st.call (DescriptorCall.update i))).1 = false := by
        simpa using hx
      rcases ih (i + 1) (x.update X bo (st.call (DescriptorCall.update i))).2 with
        ⟨hnone, heq, hall⟩ | ⟨k, hsome, hk, hvec, hst, ⟨y, hy, hpy⟩, hbefore⟩
      · left
        refine ⟨by simp [find_if, hpred, hx', hnone], ?_, ?_⟩
        · simp [find_if, hpred, hx', refresh_all, ← heq]
        · intro v hv
          simp only [refresh_all, List.mem_cons] at hv
          rcases hv with rfl | hv
          · exact hx'
          · exact hall v hv
      · right
        refine ⟨k + 1, ?_, by simpa using hk, ?_, ?_, ⟨y, ?_, hpy⟩, ?_⟩
        · simp [find_if, hpred, hx', hsome]; omega
        · simp [find_if, hpred, hx', refresh_all, hvec]
        · simp [find_if, hpred, hx', refresh_all, hst]
        · simpa [refresh_all] using hy
        · intro m hm v hv
          cases m with
          | zero =>
            simp [refresh_all] at hv
            rw [← hv]; exact hx'
          | succ m =>
            simp [refresh_all] at hv
            exact hbefore m (by omega) v hv

/-- The body shared by `focus_by_title` and `focus_by_class` after the client
list is fetched: scan with `find_if`, then `focus` on the position found. -/
theorem scan_then_focus (X : XServer) (bo : ByteOrder)
    (pred : Nat → xcb_window → State → Bool × xcb_window × State)
    (p : xcb_window → Bool) (P : xcb_window → Prop) (hP : ∀ w, p w = true ↔ P w)
    (hpred : ∀ i w st, pred i w st =
      (p (w.update X bo (st.call (DescriptorCall.update i))).1,
        (w.update X bo (st.call (DescriptorCall.update i))).1,
        (w.update X bo (st.call (DescriptorCall.update i))).2))
    (ws : List xcb_window) (st : State) :
    scan_outcome X bo P ws st
      (match (find_if pred 0 ws st).1 with
        | none => ((find_if pred 0 ws st).2.1, (find_if pred 0 ws st).2.2)
        | some j => focus_at (find_if pred 0 ws st).2.1 j (find_if pred 0 ws st).2.2) := by
  have hnot : ∀ w, p w = false → ¬ P w := by
    intro w hw hPw
    rw [(hP w).2 hPw] at hw
    exact Bool.noConfusion hw
  rcases find_if_refresh X bo pred p hpred ws 0 st with
    ⟨hnone, heq, hall⟩ | ⟨k, hsome, hk, hvec, hst, ⟨y, hy, hpy⟩, hbefore⟩
  · rw [hnone]
    simp only [heq]
    right
    exact ⟨fun w hw => hnot w (hall w hw), rfl,
      by simpa [List.range_eq_range'] using refresh_all_calls X bo ws 0 st⟩
  · rw [hsome]
    have hlen : (refresh_all X bo 0 (ws.take (k + 1)) st).1.length = k + 1 := by
      rw [refresh_all_length, List.length_take]; omega
    have hy' : (find_if pred 0 ws st).2.1[0 + k]? = some y := by
      rw [hvec, List.getElem?_append_left (by omega)]
      simpa using hy
    have hfocus : focus_at (find_if pred 0 ws st).2.1 (0 + k) (find_if pred 0 ws st).2.2 =
        ((find_if pred 0 ws st).2.1,
          (y.focus ((find_if pred 0 ws st).2.2.call (DescriptorCall.focus (0 + k)))).2) := by
      simp only [focus_at, hy', (focus_frame y _).1]
      rw [set_same _ _ _ hy']
    simp only [hfocus]
    left
    refine ⟨k, y, hk, hy, (hP y).1 hpy, ?_, hvec, ?_, ?_, ?_⟩
    · intro i hi v hv
      exact hnot v (hbefore i hi v hv)
    · simp [hst]
    · intro hw
      rw [focus_writes y _ hw, hst]
      simp [State.call]
    · have hc := refresh_all_calls X bo (ws.take (k + 1)) 0 st
      rw [List.length_take, Nat.min_eq_left (by omega)] at hc
      simp [(focus_frame y _).2, State.call, hst, hc, List.range_eq_range']

/-- C1: `focus_by_title` fetches the client list (which makes no descriptor
call) and then calls `update` on the descriptors at positions `0 .. j` in
list order and `focus` on `j`, where `j` is the first position whose title
after that update equals the target; the descriptors after `j` are left as
fetched and nothing else is written. When no refreshed title matches (also
on an empty list) it calls `update` on every position once and `focus` on
none. `focus_by_class` does the same with the test "class equals `wmclass`
and instance equals `wminstance`". See `scan_outcome`. -/
theorem C1_focus_by_scan (X : XServer) (bo : ByteOrder) (indet : Nat → Nat) (m : xcb_master)
    (st : State) (wmtitle wmclass wminstance : Bytes) :
    (m.desktop.get_client_list X bo indet st).2.calls = st.calls ∧
    scan_outcome X bo (fun w => w.wm_title = wmtitle)
      (m.desktop.get_client_list X bo indet st).1 (m.desktop.get_client_list X bo indet st).2
      (m.focus_by_title X bo indet wmtitle st) ∧
    scan_outcome X bo (fun w => w.wm_class = wmclass ∧ w.wm_instance = wminstance)
      (m.desktop.get_client_list X bo indet st).1 (m.desktop.get_client_list X bo indet st).2
      (m.focus_by_class X bo indet wmclass wminstance st) :=
  ⟨get_client_list_calls X bo indet m.desktop st,
    scan_then_focus X bo (title_lambda X bo wmtitle) (fun w => w.hasTitle wmtitle)
      (fun w => w.wm_title = wmtitle) (fun w => hasTitle_iff w wmtitle) (fun _ _ _ => rfl)
      (m.desktop.get_client_list X bo indet st).1 (m.desktop.get_client_list X bo indet st).2,
    scan_then_focus X bo (class_lambda X bo wmclass wminstance)
      (fun w => w.hasClass wmclass wminstance)
      (fun w => w.wm_class = wmclass ∧ w.wm_instance = wminstance)
      (fun w => hasClass_iff w wmclass wminstance) (fun _ _ _ => rfl)
      (m.desktop.get_client_list X bo indet st).1 (m.desktop.get_client_list X bo indet st).2⟩

/-- The scenario of the specification: with the client list "Terminal",
"Editor", `focus_by_title("Editor")` makes the calls `update` on the first
descriptor, `update` on the second, `focus` on the second. -/
theorem scenario_terminal_editor :
    ((xcb_master.mk sample_desktop).focus_by_title scenario_server ByteOrder.little (fun _ => 0)
        [69, 100, 105, 116, 111, 114] State.initial).2.calls
      = [DescriptorCall.update 0, DescriptorCall.update 1, DescriptorCall.focus 1] := by
  simp [xcb_master.focus_by_title, xcb_desktop.get_client_list, xcb_get_property,
    scenario_server, atoms_server, raw_reply, sample_desktop, State.initial, State.send,
    State.call, XCB_ATOM_WINDOW, XCB_GET_PROPERTY_TYPE_ANY, XCB_WINDOW_NONE, client_list_loop,
    xcb_window.create, xcb_atom.get_atom, xcb_intern_atom, load32, mem_of, find_if,
    title_lambda, xcb_window.update, xcb_window.get_window_property_class,
    xcb_window.get_window_property_title, xcb_window.get_window_property_desktop,
    xcb_window.hasTitle, strnlen, std_string, focus_at, xcb_window.focus]

end xcb
